import Mathlib

/-!
Verification of the GlowBlaster seed script (scripts/seed_test_patterns.py).

The script holds a fixed five-element list of pattern records, and for each
record issues one HTTP POST with a JSON body, classifies the outcome from the
decoded JSON response, prints a line per attempt, and ends with a tally line.

The embedding below models the script as pure functions: the network is an
oracle assigning to each POST attempt either a raised exception (its message)
or an HTTP response carrying a status code and the result of decoding the
body as JSON.
-/

set_option autoImplicit false

namespace SeedPatterns

/-- A pattern record of the script: a display name and an opaque multi-line
lcl body, both strings. -/
structure Pattern where
  name : String
  lcl : String
deriving DecidableEq

/-- First record of TEST_PATTERNS. -/
def patAllRed : Pattern :=
  ⟨"All Red",
   "effect: solid\nname: \"All Red\"\n\nappearance:\n  color: red\n  brightness: bright\n\ntiming:\n  speed: medium"⟩

/-- Second record of TEST_PATTERNS. -/
def patAllBlue : Pattern :=
  ⟨"All Blue",
   "effect: solid\nname: \"All Blue\"\n\nappearance:\n  color: blue\n  brightness: bright\n\ntiming:\n  speed: medium"⟩

/-- Third record of TEST_PATTERNS. -/
def patAllGreen : Pattern :=
  ⟨"All Green",
   "effect: solid\nname: \"All Green\"\n\nappearance:\n  color: green\n  brightness: bright\n\ntiming:\n  speed: medium"⟩

/-- Fourth record of TEST_PATTERNS. -/
def patAllWhite : Pattern :=
  ⟨"All White",
   "effect: solid\nname: \"All White\"\n\nappearance:\n  color: white\n  brightness: bright\n\ntiming:\n  speed: medium"⟩

/-- Fifth record of TEST_PATTERNS. -/
def patRedWhiteBlue : Pattern :=
  ⟨"Red, White, Blue",
   "effect: chase\nname: \"Red, White, Blue\"\n\nbehavior:\n  head_size: medium\n  tail_length: medium\n  tail_style: fade\n  count: triple\n\nappearance:\n  colors:\n    - red\n    - white\n    - blue\n  brightness: bright\n\ntiming:\n  speed: medium\n\nspatial:\n  direction: forward"⟩

/-- The fixed record list TEST_PATTERNS of the script. -/
def TEST_PATTERNS : List Pattern :=
  [patAllRed, patAllBlue, patAllGreen, patAllWhite, patRedWhiteBlue]

/-- A value in a decoded JSON response body, as Python sees it. -/
inductive PyVal where
  | none
  | bool (b : Bool)
  | int (n : Int)
  | str (s : String)
deriving DecidableEq

/-- Python truthiness of a value. -/
def truthy : PyVal → Bool
  | PyVal.none => false
  | PyVal.bool b => b
  | PyVal.int n => n != 0
  | PyVal.str s => s != ""

/-- A decoded JSON object: field names with their values, first match wins. -/
abbrev JsonObj : Type := List (String × PyVal)

/-- Python dict.get with an explicit default. -/
def dgetD (d : JsonObj) (k : String) (dflt : PyVal) : PyVal :=
  match d.find? (fun kv => kv.1 == k) with
  | Option.none => dflt
  | Option.some kv => kv.2

/-- Python dict.get with one argument: absent keys give None. -/
def dget (d : JsonObj) (k : String) : PyVal :=
  dgetD d k PyVal.none

/-- Python str() of a value, as used when formatting the error field. -/
def pyToStr : PyVal → String
  | PyVal.none => "None"
  | PyVal.bool true => "True"
  | PyVal.bool false => "False"
  | PyVal.int n => toString n
  | PyVal.str s => s

/-- An HTTP response as the script can observe it: the status code, and the
result of resp.json() (decoded object, or message of the raised exception). -/
structure HttpResponse where
  status : Nat
  jsonBody : Except String JsonObj

/-- Outcome of one requests.post call: a raised exception (its message) or a
response. -/
abbrev PostOutcome : Type := Except String HttpResponse

/-- The network oracle: outcome of the i-th POST attempt of the run. -/
abbrev World : Type := Nat → PostOutcome

/-- The HTTP request data the script hands to requests.post: url, headers,
and the JSON payload object. -/
structure Request where
  url : String
  headers : List (String × String)
  body : List (String × String)
deriving DecidableEq

/-- The request built by create_pattern for one record. -/
def mkRequest (base_url cookie : String) (p : Pattern) : Request :=
  ⟨base_url ++ "/api/glowblaster/patterns",
   [("Content-Type", "application/json"), ("Cookie", cookie)],
   [("name", p.name), ("lcl", p.lcl)]⟩

/-- Result of one create_pattern call: the returned Bool, the lines printed,
and the request that was issued. -/
structure CPResult where
  ok : Bool
  lines : List String
  req : Request
deriving DecidableEq

/-- resp = requests.post(...) followed by data = resp.json(): an exception in
either step propagates to the except clause of create_pattern. -/
def fetchData (r : PostOutcome) : Except String JsonObj :=
  match r with
  | Except.error e => Except.error e
  | Except.ok resp => resp.jsonBody

/-- create_pattern of the script: build the request, perform the POST, decode
the body, classify by the truthiness of the success field; any exception is
caught and reported, returning False. -/
def create_pattern (base_url cookie : String) (p : Pattern) (r : PostOutcome) : CPResult :=
  let req := mkRequest base_url cookie p
  match fetchData r with
  | Except.ok data =>
    if truthy (dget data "success") then
      ⟨true, ["  Created: " ++ p.name], req⟩
    else
      ⟨false, ["  Failed: " ++ p.name ++ " - " ++ pyToStr (dgetD data "error" (PyVal.str "Unknown error"))], req⟩
  | Except.error e => ⟨false, ["  Error: " ++ p.name ++ " - " ++ e], req⟩

/-- Whether the outcome of one POST attempt counts as a success for the
script: the body decoded to an object whose success field is truthy. -/
def outcomeSuccess (r : PostOutcome) : Bool :=
  match fetchData r with
  | Except.ok data => truthy (dget data "success")
  | Except.error _ => false

/-- Accumulated result of the loop of main: the success counter, the printed
lines, and the requests issued, in order. -/
structure LoopResult where
  successCount : Nat
  lines : List String
  requests : List Request
deriving DecidableEq

/-- The for-loop of main over the record list, the i-th iteration consuming
the i-th outcome of the world. -/
def seedLoop (base_url cookie : String) (w : World) : List Pattern → Nat → LoopResult
  | [], _ => ⟨0, [], []⟩
  | p :: ps, i =>
    let r := create_pattern base_url cookie p (w i)
    let rest := seedLoop base_url cookie w ps (i + 1)
    ⟨(if r.ok then 1 else 0) + rest.successCount, r.lines ++ rest.lines, r.req :: rest.requests⟩

/-- The final line printed by main, from its f-string. -/
def tallyLine (successCount total : Nat) : String :=
  "Complete: " ++ toString successCount ++ "/" ++ toString total ++ " patterns created"

/-- main after argument parsing: the full console output (one string per
printed line, print() giving an empty line) and the requests issued.
Parametrised by the record list, instantiated with TEST_PATTERNS below. -/
def runMain (base_url cookie : String) (w : World) (patterns : List Pattern) :
    List String × List Request :=
  let r := seedLoop base_url cookie w patterns 0
  (("Seeding " ++ toString patterns.length ++ " test patterns...") ::
     "" :: (r.lines ++ ["", tallyLine r.successCount patterns.length]),
   r.requests)

/-- The loop of main with exception propagation made explicit: the per-item
body could only raise if create_pattern let an exception escape, which its
catch-all except prevents, so the loop itself is total. -/
def seedLoopExc (base_url cookie : String) (w : World) :
    List Pattern → Nat → Except String LoopResult
  | [], _ => Except.ok ⟨0, [], []⟩
  | p :: ps, i =>
    let r := create_pattern base_url cookie p (w i)
    (seedLoopExc base_url cookie w ps (i + 1)).map fun rest =>
      ⟨(if r.ok then 1 else 0) + rest.successCount, r.lines ++ rest.lines, r.req :: rest.requests⟩

/-- Process exit status given valid required arguments: 0 when main returns
normally, 1 when an exception escapes the loop and kills the process. -/
def scriptExit (base_url cookie : String) (w : World) : Nat :=
  match seedLoopExc base_url cookie w TEST_PATTERNS 0 with
  | Except.ok _ => 0
  | Except.error _ => 1

/-- Number of attempts among i, i+1, ..., i+n-1 whose outcome is a success. -/
def countSucc (w : World) : Nat → Nat → Nat
  | _, 0 => 0
  | i, n + 1 => (if outcomeSuccess (w i) then 1 else 0) + countSucc w (i + 1) n

/-- A world where every attempt gets status 200 and body decoding to an
object with success set to True. -/
def allTrueWorld : World :=
  fun _ => Except.ok ⟨200, Except.ok [("success", PyVal.bool true)]⟩

/-- A decoded body signalling an application-level rejection with an error
string, as in the duplicate example of the spec. -/
def dupData : JsonObj :=
  [("success", PyVal.bool false), ("error", PyVal.str "duplicate")]

/-- A world where every requests.post call raises. -/
def errWorld : World :=
  fun _ => Except.error "connection refused"

/- Helper lemmas shared by the claim theorems. -/

theorem create_pattern_req (base_url cookie : String) (p : Pattern) (r : PostOutcome) :
    (create_pattern base_url cookie p r).req = mkRequest base_url cookie p := by
  unfold create_pattern
  cases fetchData r with
  | ok data => by_cases h : truthy (dget data "success") <;> simp [h]
  | error e => rfl

theorem create_pattern_ok (base_url cookie : String) (p : Pattern) (r : PostOutcome) :
    (create_pattern base_url cookie p r).ok = outcomeSuccess r := by
  unfold create_pattern outcomeSuccess
  cases fetchData r with
  | ok data => by_cases h : truthy (dget data "success") <;> simp [h]
  | error e => rfl

theorem seedLoop_requests (base_url cookie : String) (w : World) :
    ∀ (ps : List Pattern) (i : Nat),
      (seedLoop base_url cookie w ps i).requests = ps.map (mkRequest base_url cookie)
  | [], _ => rfl
  | p :: ps, i => by
    simp [seedLoop, create_pattern_req, seedLoop_requests base_url cookie w ps (i + 1)]

theorem seedLoop_successCount (base_url cookie : String) (w : World) :
    ∀ (ps : List Pattern) (i : Nat),
      (seedLoop base_url cookie w ps i).successCount = countSucc w i ps.length
  | [], _ => rfl
  | p :: ps, i => by
    simp [seedLoop, countSucc, create_pattern_ok,
      seedLoop_successCount base_url cookie w ps (i + 1)]

theorem getLast_shape {α : Type} (a b c d : α) (xs : List α) :
    (a :: b :: (xs ++ [c, d])).getLast? = some d := by
  have h : a :: b :: (xs ++ [c, d]) = (a :: b :: xs) ++ c :: [d] := by simp
  rw [h, List.getLast?_append_cons]
  rfl

theorem runMain_getLast (base_url cookie : String) (w : World) (ps : List Pattern) :
    (runMain base_url cookie w ps).1.getLast? =
      some (tallyLine (seedLoop base_url cookie w ps 0).successCount ps.length) :=
  getLast_shape _ _ _ _ _

theorem seedLoopExc_ok (base_url cookie : String) (w : World) :
    ∀ (ps : List Pattern) (i : Nat),
      seedLoopExc base_url cookie w ps i = Except.ok (seedLoop base_url cookie w ps i)
  | [], _ => rfl
  | p :: ps, i => by
    simp [seedLoopExc, seedLoop, seedLoopExc_ok base_url cookie w ps (i + 1), Except.map]

end SeedPatterns

namespace SeedPatterns

/-- C1: for every record in the fixed five-element pattern list, the request
issued by create_pattern goes to base_url followed by
/api/glowblaster/patterns and its JSON body is exactly the two-field object
with name and lcl taken verbatim from the record, the lcl text forwarded
unmodified with its embedded newline characters (each lcl of the list does
contain a newline). -/
theorem C1_payload_exact (p : Pattern) (hp : p ∈ TEST_PATTERNS)
    (base_url cookie : String) (r : PostOutcome) :
    (create_pattern base_url cookie p r).req =
      ⟨base_url ++ "/api/glowblaster/patterns",
       [("Content-Type", "application/json"), ("Cookie", cookie)],
       [("name", p.name), ("lcl", p.lcl)]⟩ ∧
    p.lcl.data.contains (Char.ofNat 10) = true := by
  refine ⟨create_pattern_req base_url cookie p r, ?_⟩
  simp [TEST_PATTERNS] at hp
  rcases hp with rfl | rfl | rfl | rfl | rfl <;> decide

/-- Witness for C1 at the first record of the list, with the POST raising. -/
theorem C1_payload_exact_witness :
    patAllRed ∈ TEST_PATTERNS ∧
    ((create_pattern "http://app" "session=s" patAllRed (Except.error "boom")).req =
      ⟨"http://app" ++ "/api/glowblaster/patterns",
       [("Content-Type", "application/json"), ("Cookie", "session=s")],
       [("name", patAllRed.name), ("lcl", patAllRed.lcl)]⟩ ∧
     patAllRed.lcl.data.contains (Char.ofNat 10) = true) :=
  ⟨by decide,
   C1_payload_exact patAllRed (by decide) "http://app" "session=s" (Except.error "boom")⟩

/-- C2: whatever the per-item outcomes, main issues exactly one POST per
record of the fixed list, in order, hence exactly 5 POST calls. -/
theorem C2_one_post_per_record (base_url cookie : String) (w : World) :
    (runMain base_url cookie w TEST_PATTERNS).2 =
      TEST_PATTERNS.map (mkRequest base_url cookie) ∧
    (runMain base_url cookie w TEST_PATTERNS).2.length = 5 := by
  have h := seedLoop_requests base_url cookie w TEST_PATTERNS 0
  refine ⟨h, ?_⟩
  rw [show (runMain base_url cookie w TEST_PATTERNS).2 =
    TEST_PATTERNS.map (mkRequest base_url cookie) from h]
  rfl

/-- C3 counterexample: when every response decodes to an object with success
True, no printed line is the bare string 5/5 patterns created; the final line
carries the Complete: prefix. -/
theorem C3_counterexample :
    "5/5 patterns created" ∉ (runMain "http://app" "session=s" allTrueWorld TEST_PATTERNS).1 ∧
    (runMain "http://app" "session=s" allTrueWorld TEST_PATTERNS).1.getLast? =
      some "Complete: 5/5 patterns created" := by
  decide

/-- C3 (amended): the final printed line is Complete: s/5 patterns created
with s the success count; when every one of the five outcomes decodes to an
object with a truthy success field, it is exactly the string
Complete: 5/5 patterns created. -/
theorem C3_tally_line (base_url cookie : String) (w : World)
    (hall : ∀ i, i < 5 → outcomeSuccess (w i) = true) :
    (runMain base_url cookie w TEST_PATTERNS).1.getLast? =
      some "Complete: 5/5 patterns created" ∧
    ∀ w2 : World, (runMain base_url cookie w2 TEST_PATTERNS).1.getLast? =
      some (tallyLine (countSucc w2 0 5) 5) := by
  have hgen : ∀ w2 : World, (runMain base_url cookie w2 TEST_PATTERNS).1.getLast? =
      some (tallyLine (countSucc w2 0 5) 5) := by
    intro w2
    rw [runMain_getLast, seedLoop_successCount]
    rfl
  refine ⟨?_, hgen⟩
  have h5 : countSucc w 0 5 = 5 := by
    simp [countSucc, hall 0 (by norm_num), hall 1 (by norm_num), hall 2 (by norm_num),
      hall 3 (by norm_num), hall 4 (by norm_num)]
  rw [hgen w, h5]
  rfl

/-- Witness for the amended C3 in the all-success world. -/
theorem C3_tally_line_witness :
    (runMain "http://app" "session=s" allTrueWorld TEST_PATTERNS).1.getLast? =
      some "Complete: 5/5 patterns created" :=
  (C3_tally_line "http://app" "session=s" allTrueWorld (fun _ _ => rfl)).1

/-- C4: when performing the request or decoding the body raises, the
exception is caught inside create_pattern, the Error line with the record
name and the exception message is printed, the item returns False, the
success counter is unchanged, and the loop still processes every remaining
record, one request each. -/
theorem C4_exception_caught (base_url cookie : String) (p : Pattern) (r : PostOutcome)
    (e : String) (he : fetchData r = Except.error e) :
    create_pattern base_url cookie p r =
      ⟨false, ["  Error: " ++ p.name ++ " - " ++ e], mkRequest base_url cookie p⟩ ∧
    ∀ (w : World) (ps : List Pattern) (i : Nat), w i = r →
      (seedLoop base_url cookie w (p :: ps) i).successCount =
        (seedLoop base_url cookie w ps (i + 1)).successCount ∧
      (seedLoop base_url cookie w (p :: ps) i).lines =
        ("  Error: " ++ p.name ++ " - " ++ e) :: (seedLoop base_url cookie w ps (i + 1)).lines ∧
      (seedLoop base_url cookie w (p :: ps) i).requests.length = ps.length + 1 := by
  have hc : create_pattern base_url cookie p r =
      ⟨false, ["  Error: " ++ p.name ++ " - " ++ e], mkRequest base_url cookie p⟩ := by
    unfold create_pattern
    rw [he]
  refine ⟨hc, ?_⟩
  intro w ps i hw
  refine ⟨?_, ?_, ?_⟩
  · simp [seedLoop, hw, hc]
  · simp [seedLoop, hw, hc]
  · simp [seedLoop, seedLoop_requests]

/-- Witness for C4 in a world whose every POST raises. -/
theorem C4_exception_caught_witness :
    fetchData (errWorld 0) = Except.error "connection refused" ∧
    (create_pattern "http://app" "session=s" patAllRed (errWorld 0) =
      ⟨false, ["  Error: " ++ patAllRed.name ++ " - " ++ "connection refused"],
       mkRequest "http://app" "session=s" patAllRed⟩ ∧
     (seedLoop "http://app" "session=s" errWorld [patAllBlue] 0).successCount =
        (seedLoop "http://app" "session=s" errWorld [] 1).successCount ∧
     (seedLoop "http://app" "session=s" errWorld [patAllBlue] 0).lines =
        ("  Error: " ++ patAllBlue.name ++ " - " ++ "connection refused") ::
          (seedLoop "http://app" "session=s" errWorld [] 1).lines ∧
     (seedLoop "http://app" "session=s" errWorld [patAllBlue] 0).requests.length = 0 + 1) := by
  refine ⟨rfl, (C4_exception_caught "http://app" "session=s" patAllRed (errWorld 0)
    "connection refused" rfl).1, ?_⟩
  exact (C4_exception_caught "http://app" "session=s" patAllBlue (errWorld 0)
    "connection refused" rfl).2 errWorld [] 0 rfl

/-- C5: when the response decodes to an object whose success field is truthy,
create_pattern prints the Created line with the record name, returns True,
and the loop of main adds exactly one to the success counter for that item. -/
theorem C5_truthy_success (base_url cookie : String) (p : Pattern) (st : Nat) (data : JsonObj)
    (h : truthy (dget data "success") = true) :
    create_pattern base_url cookie p (Except.ok ⟨st, Except.ok data⟩) =
      ⟨true, ["  Created: " ++ p.name], mkRequest base_url cookie p⟩ ∧
    ∀ (w : World) (ps : List Pattern) (i : Nat), w i = Except.ok ⟨st, Except.ok data⟩ →
      (seedLoop base_url cookie w (p :: ps) i).successCount =
        (seedLoop base_url cookie w ps (i + 1)).successCount + 1 := by
  have hc : create_pattern base_url cookie p (Except.ok ⟨st, Except.ok data⟩) =
      ⟨true, ["  Created: " ++ p.name], mkRequest base_url cookie p⟩ := by
    unfold create_pattern
    simp [fetchData, h]
  refine ⟨hc, ?_⟩
  intro w ps i hw
  simp [seedLoop, hw, hc, Nat.add_comm]

/-- Witness for C5 with the body success: True. -/
theorem C5_truthy_success_witness :
    truthy (dget [("success", PyVal.bool true)] "success") = true ∧
    (create_pattern "http://app" "session=s" patAllRed
        (Except.ok ⟨200, Except.ok [("success", PyVal.bool true)]⟩) =
      ⟨true, ["  Created: " ++ patAllRed.name], mkRequest "http://app" "session=s" patAllRed⟩ ∧
     (seedLoop "http://app" "session=s" allTrueWorld [patAllRed] 0).successCount =
       (seedLoop "http://app" "session=s" allTrueWorld [] 1).successCount + 1) := by
  refine ⟨by decide, (C5_truthy_success "http://app" "session=s" patAllRed 200
    [("success", PyVal.bool true)] (by decide)).1, ?_⟩
  exact (C5_truthy_success "http://app" "session=s" patAllRed 200
    [("success", PyVal.bool true)] (by decide)).2 allTrueWorld [] 0 rfl

/-- C6: when the response decodes to an object whose success field is absent
or falsy, create_pattern prints the Failed line carrying the error field of
the body when present and the fallback Unknown error otherwise, returns
False, the success counter is not incremented, and the total of the tally
line still counts the item. -/
theorem C6_failure_branch (base_url cookie : String) (p : Pattern) (st : Nat) (data : JsonObj)
    (h : truthy (dget data "success") = false) :
    create_pattern base_url cookie p (Except.ok ⟨st, Except.ok data⟩) =
      ⟨false,
       ["  Failed: " ++ p.name ++ " - " ++ pyToStr (dgetD data "error" (PyVal.str "Unknown error"))],
       mkRequest base_url cookie p⟩ ∧
    (∀ (w : World) (ps : List Pattern) (i : Nat), w i = Except.ok ⟨st, Except.ok data⟩ →
      (seedLoop base_url cookie w (p :: ps) i).successCount =
        (seedLoop base_url cookie w ps (i + 1)).successCount) ∧
    ∀ (w : World) (ps : List Pattern),
      (runMain base_url cookie w (p :: ps)).1.getLast? =
        some (tallyLine (seedLoop base_url cookie w (p :: ps) 0).successCount (ps.length + 1)) := by
  have hc : create_pattern base_url cookie p (Except.ok ⟨st, Except.ok data⟩) =
      ⟨false,
       ["  Failed: " ++ p.name ++ " - " ++ pyToStr (dgetD data "error" (PyVal.str "Unknown error"))],
       mkRequest base_url cookie p⟩ := by
    unfold create_pattern
    simp [fetchData, h]
  refine ⟨hc, ?_, ?_⟩
  · intro w ps i hw
    simp [seedLoop, hw, hc]
  · intro w ps
    rw [runMain_getLast]
    rfl

/-- Witness for C6 with the duplicate rejection body of the spec: the printed
line is exactly the Failed line with the word duplicate. -/
theorem C6_failure_branch_witness :
    truthy (dget dupData "success") = false ∧
    create_pattern "http://app" "session=s" patAllRed (Except.ok ⟨200, Except.ok dupData⟩) =
      ⟨false,
       ["  Failed: " ++ patAllRed.name ++ " - " ++
         pyToStr (dgetD dupData "error" (PyVal.str "Unknown error"))],
       mkRequest "http://app" "session=s" patAllRed⟩ ∧
    pyToStr (dgetD dupData "error" (PyVal.str "Unknown error")) = "duplicate" ∧
    "  Failed: " ++ patAllRed.name ++ " - " ++ "duplicate" = "  Failed: All Red - duplicate" :=
  ⟨by decide,
   (C6_failure_branch "http://app" "session=s" patAllRed 200 dupData (by decide)).1,
   by decide, by decide⟩

/-- C7 counterexample: with an empty record list the script never prints the
bare string 0/0 patterns created; the tally line carries the Complete:
prefix. -/
theorem C7_counterexample :
    "0/0 patterns created" ∉ (runMain "http://app" "session=s" errWorld []).1 ∧
    (runMain "http://app" "session=s" errWorld []).1 =
      ["Seeding 0 test patterns...", "", "", "Complete: 0/0 patterns created"] := by
  decide

/-- C7 (amended): with an empty record list, for any world, the output is
exactly the Seeding 0 test patterns... line, two blank lines and the line
Complete: 0/0 patterns created, and no request is issued at all. -/
theorem C7_empty_list (base_url cookie : String) (w : World) :
    runMain base_url cookie w [] =
      (["Seeding 0 test patterns...", "", "", "Complete: 0/0 patterns created"], []) := by
  simp only [runMain, seedLoop]
  decide

/-- C8: given the two required arguments, whatever the per-item outcomes,
the process finishes the whole batch and exits with status 0: no per-item
failure or exception escalates to a nonzero exit. -/
theorem C8_always_exit_zero (base_url cookie : String) (w : World) :
    scriptExit base_url cookie w = 0 := by
  unfold scriptExit
  rw [seedLoopExc_ok]

/-- C9: the outcome classification never inspects the HTTP status code: two
responses differing only in status are treated identically, a body with a
truthy success field counts as a success at any status, and a 200 response
without one counts as a failure. -/
theorem C9_status_never_inspected (base_url cookie : String) (p : Pattern)
    (s1 s2 : Nat) (jb : Except String JsonObj) (data : JsonObj) :
    (create_pattern base_url cookie p (Except.ok ⟨s1, jb⟩) =
      create_pattern base_url cookie p (Except.ok ⟨s2, jb⟩)) ∧
    (truthy (dget data "success") = true →
      (create_pattern base_url cookie p (Except.ok ⟨s1, Except.ok data⟩)).ok = true) ∧
    (truthy (dget data "success") = false →
      (create_pattern base_url cookie p (Except.ok ⟨200, Except.ok data⟩)).ok = false) := by
  refine ⟨rfl, ?_, ?_⟩
  · intro h
    rw [create_pattern_ok]
    simp [outcomeSuccess, fetchData, h]
  · intro h
    rw [create_pattern_ok]
    simp [outcomeSuccess, fetchData, h]

/-- Witness for C9: a 404 and a 500 response with success True are treated
alike and count as a success; a 200 rejection body counts as a failure. -/
theorem C9_status_never_inspected_witness :
    (create_pattern "http://app" "session=s" patAllRed
        (Except.ok ⟨404, Except.ok [("success", PyVal.bool true)]⟩) =
      create_pattern "http://app" "session=s" patAllRed
        (Except.ok ⟨500, Except.ok [("success", PyVal.bool true)]⟩)) ∧
    (create_pattern "http://app" "session=s" patAllRed
        (Except.ok ⟨404, Except.ok [("success", PyVal.bool true)]⟩)).ok = true ∧
    (create_pattern "http://app" "session=s" patAllRed
        (Except.ok ⟨200, Except.ok dupData⟩)).ok = false :=
  ⟨(C9_status_never_inspected "http://app" "session=s" patAllRed 404 500
      (Except.ok [("success", PyVal.bool true)]) [("success", PyVal.bool true)]).1,
   (C9_status_never_inspected "http://app" "session=s" patAllRed 404 500
      (Except.ok [("success", PyVal.bool true)]) [("success", PyVal.bool true)]).2.1 (by decide),
   (C9_status_never_inspected "http://app" "session=s" patAllRed 404 500
      (Except.ok dupData) dupData).2.2 (by decide)⟩

/-- C10: the request URL is the plain concatenation of base_url with the
literal path, with no normalization: a base_url ending in a slash yields a
double slash before api. -/
theorem C10_url_plain_concat (base_url cookie : String) (p : Pattern) (r : PostOutcome) :
    (create_pattern base_url cookie p r).req.url = base_url ++ "/api/glowblaster/patterns" ∧
    (create_pattern (base_url ++ "/") cookie p r).req.url =
      base_url ++ "//api/glowblaster/patterns" := by
  refine ⟨by rw [create_pattern_req]; rfl, ?_⟩
  rw [create_pattern_req]
  show (base_url ++ "/") ++ "/api/glowblaster/patterns" = base_url ++ "//api/glowblaster/patterns"
  rw [String.append_assoc]
  have h : ("/" : String) ++ "/api/glowblaster/patterns" = "//api/glowblaster/patterns" := rfl
  rw [h]

end SeedPatterns
